import Mathlib

/-!
Verification of the extended-memory dashboard's client-sync layer: the
react-query based Server-State Cache (web/src/hooks/useMemories.ts, embedded
from src/unnamed/part_008) and the auto-reconnecting WebSocket channel
(web/src/hooks/useWebSocket.ts, embedded from src/unnamed/part_009), together
with the realtime-message effect of App.tsx.

Machine integers of the source are JavaScript numbers used as integral ids and
counters; they are embedded as Int / Nat (no overflow is reachable at the
sizes involved). Optional / undefined fields are Option values; a JS object
field that is undefined is the same cache-key value as an absent field, which
the Option embedding reproduces.
-/

namespace ExtendedMemory

/-! ## Data model (web/src/types/memory.ts) -/

inductive MemoryType where
  | general | conversation | fact | task | project | personal | code | reference
deriving DecidableEq

inductive SharedCategory where
  | knowledge | tasks | projects | contacts | resources | templates
deriving DecidableEq

structure Assistant where
  id : Int
  name : String
  personality : Option String
  is_active : Bool
  created_at : String
  updated_at : String
deriving DecidableEq

structure Memory where
  id : Int
  assistant_id : Int
  content : String
  summary : Option String
  memory_type : MemoryType
  importance : Int
  tags : Option String
  source : Option String
  context : Option String
  is_shared : Bool
  shared_category : Option SharedCategory
  access_count : Int
  created_at : String
  updated_at : String
  accessed_at : Option String
  assistant : Option Assistant
deriving DecidableEq

/-- Filter object of the memory-list query (MemoryFilters in types/memory.ts).
Every field is optional; an undefined field and an absent field hash to the
same react-query cache key, matching the Option embedding. -/
structure MemoryFilters where
  assistant_id : Option Int := none
  memory_type : Option MemoryType := none
  min_importance : Option Int := none
  max_importance : Option Int := none
  tags : Option (List String) := none
  include_shared : Option Bool := none
  skip : Option Nat := none
  limit : Option Nat := none
deriving DecidableEq

/-! ## Query keys (MEMORY_KEYS, part_008 lines 12-23)

A react-query key is an array of segments: string literals, numbers, an
undefined hole, or a filter object. Two keys address the same cache entry
exactly when they are structurally equal. -/

inductive KeySeg where
  | str (s : String)
  | num (n : Int)
  | undef
  | filt (f : MemoryFilters)
deriving DecidableEq

abbrev QueryKey := List KeySeg

/-- Embeds an optional JS number appearing as a key segment: a present number
is the number itself, undefined is the undefined hole. -/
def optSeg : Option Int → KeySeg
  | some n => .num n
  | none => .undef

namespace MEMORY_KEYS

def all : QueryKey := [.str "memories"]

def lists : QueryKey := all ++ [.str "list"]

def list (filters : MemoryFilters) : QueryKey := lists ++ [.filt filters]

def details : QueryKey := all ++ [.str "detail"]

def detail (id : Int) : QueryKey := details ++ [.num id]

def related (id : Int) : QueryKey := all ++ [.str "related", .num id]

def stats (assistantId : Int) : QueryKey := all ++ [.str "stats", .num assistantId]

def recent (assistantId : Option Int) : QueryKey := all ++ [.str "recent", optSeg assistantId]

def important (assistantId : Option Int) : QueryKey := all ++ [.str "important", optSeg assistantId]

def accessed (assistantId : Option Int) : QueryKey := all ++ [.str "accessed", optSeg assistantId]

end MEMORY_KEYS

/-! ## Cache and invalidation semantics (react-query v3 as used by part_008)

invalidateQueries and removeQueries match every cached query whose key begins
with the given key (partial matching); setQueryData addresses one exact key. -/

/-- Partial key matching of react-query: the pattern matches a key when the
pattern's segments are an initial run of the key's segments. -/
def keyMatches : QueryKey → QueryKey → Bool
  | [], _ => true
  | _ :: _, [] => false
  | p :: ps, k :: ks => decide (p = k) && keyMatches ps ks

inductive QueryStatus where
  | idle | loading | success | error
deriving DecidableEq

structure CacheEntry where
  key : QueryKey
  status : QueryStatus
  invalidated : Bool
  value : Option Memory
deriving DecidableEq

abbrev Cache := List CacheEntry

def findEntry (c : Cache) (k : QueryKey) : Option CacheEntry :=
  List.find? (fun e => decide (e.key = k)) c

/-- Cache operations issued by the mutation handlers. -/
inductive CacheOp where
  | invalidate (pat : QueryKey)
  | removeQ (pat : QueryKey)
  | setData (key : QueryKey) (v : Memory)
deriving DecidableEq

def applyOp (c : Cache) : CacheOp → Cache
  | .invalidate pat =>
      List.map (fun e => if keyMatches pat e.key then { e with invalidated := true } else e) c
  | .removeQ pat =>
      List.filter (fun e => !keyMatches pat e.key) c
  | .setData k v =>
      if List.any c (fun e => decide (e.key = k)) then
        List.map (fun e => if decide (e.key = k) then
          { e with value := some v, status := .success, invalidated := false } else e) c
      else
        c ++ [{ key := k, status := .success, invalidated := false, value := some v }]

def applyOps (c : Cache) (ops : List CacheOp) : Cache :=
  List.foldl applyOp c ops

/-! ## Mutation hooks (part_008 lines 92-187)

Each hook passes a mutationFn plus onSuccess / onError handlers to
useMutation. The remote write's outcome is embedded as an Except value; the
handler pair becomes one function from the outcome and the current cache to
the new cache and the toast that is shown. None of the hooks passes a retry
option, and react-query performs no automatic retry of mutations by default. -/

structure JsError where
  message : Option String
deriving DecidableEq

inductive Toast where
  | success (msg : String)
  | error (msg : String)
deriving DecidableEq

/-- Retry configuration of the three mutation hooks: no retry option is
passed to useMutation, whose default performs zero automatic retries. -/
def mutationRetryCount : Nat := 0

/-- Cache operations of useCreateMemory's onSuccess (part_008 lines 97-104). -/
def useCreateMemory_onSuccess (newMemory : Memory) : List CacheOp :=
  [ .invalidate MEMORY_KEYS.lists,
    .invalidate (MEMORY_KEYS.stats newMemory.assistant_id),
    .invalidate (MEMORY_KEYS.recent (some newMemory.assistant_id)) ]

/-- Cache operations of useUpdateMemory's onSuccess (part_008 lines 118-126). -/
def useUpdateMemory_onSuccess (updatedMemory : Memory) : List CacheOp :=
  [ .setData (MEMORY_KEYS.detail updatedMemory.id) updatedMemory,
    .invalidate MEMORY_KEYS.lists,
    .invalidate (MEMORY_KEYS.stats updatedMemory.assistant_id) ]

/-- Cache operations of useDeleteMemory's onSuccess (part_008 lines 140-147).
The source calls invalidateQueries with the MEMORY_KEYS.stats function object
itself, not a key; react-query v3 then treats the argument as a filters object
with no constraints, which matches every cached query, embedded here as an
invalidate with the empty pattern. -/
def useDeleteMemory_onSuccess (deletedId : Int) : List CacheOp :=
  [ .removeQ (MEMORY_KEYS.detail deletedId),
    .invalidate MEMORY_KEYS.lists,
    .invalidate [] ]

def useCreateMemory_onResult (res : Except JsError Memory) (c : Cache) : Cache × Toast :=
  match res with
  | .ok newMemory =>
      (applyOps c (useCreateMemory_onSuccess newMemory), .success "Memory created successfully")
  | .error e => (c, .error (e.message.getD "Failed to create memory"))

def useUpdateMemory_onResult (res : Except JsError Memory) (c : Cache) : Cache × Toast :=
  match res with
  | .ok updatedMemory =>
      (applyOps c (useUpdateMemory_onSuccess updatedMemory), .success "Memory updated successfully")
  | .error e => (c, .error (e.message.getD "Failed to update memory"))

def useDeleteMemory_onResult (deletedId : Int) (res : Except JsError Unit) (c : Cache) :
    Cache × Toast :=
  match res with
  | .ok _ =>
      (applyOps c (useDeleteMemory_onSuccess deletedId), .success "Memory deleted successfully")
  | .error e => (c, .error (e.message.getD "Failed to delete memory"))

/-! ## Inbound realtime messages and the App.tsx effect -/

/-- Inbound message shape (WebSocketMessage in types/api.ts). The data field
is typed any in the source and is a type parameter here. -/
structure WsMessage (α : Type) where
  type : String
  data : α
  timestamp : String
deriving DecidableEq

/-- Realtime-message effect of App.tsx lines 32-38: when a new lastMessage
arrives, the effect body only logs it to the console. It performs no cache
operation of any kind, so as a function on the cache it is the identity. -/
def App_handleLastMessage {α : Type} (_lastMessage : WsMessage α) (c : Cache) : Cache := c

/-- Payload of a memory event as referenced by the realtime vocabulary; used
only to give the data field of concrete messages a concrete type. -/
structure MemoryEventData where
  id : Int
deriving DecidableEq

/-! ## Realtime Channel (useWebSocket, part_009)

The hook owns one underlying WebSocket at a time (wsRef), a pending reconnect
timer (reconnectTimeoutRef), a retry counter (reconnectAttemptsRef) and the
observable state variables isConnected / lastMessage / connectionState. The
hook body is embedded as a state machine: the callbacks connect / disconnect /
sendMessage and the four transport event handlers become transitions on one
explicit state record. JSON.parse of an inbound payload is an external
library call and is a parameter of the message transition. -/

inductive ReadyState where
  | connecting | opened | closing | closed
deriving DecidableEq

inductive ConnState where
  | connecting | connected | disconnected | error
deriving DecidableEq

/-- One underlying WebSocket object: its transport readyState plus a serial
number distinguishing distinct constructions of new WebSocket(url). -/
structure WsSocket where
  readyState : ReadyState
  connId : Nat
deriving DecidableEq

structure UseWebSocketOptions where
  enabled : Bool := true
  reconnect : Bool := true
  reconnectInterval : Nat := 3000
  maxReconnectAttempts : Nat := 5
deriving DecidableEq

structure ChannelState (α : Type) where
  isConnected : Bool
  lastMessage : Option (WsMessage α)
  connectionState : ConnState
  wsRef : Option WsSocket
  /-- Pending scheduled reconnect, holding its delay in ms; none when no
  timer is pending (set by setTimeout in onclose, consumed when it fires,
  cleared by clearTimeout in disconnect). -/
  reconnectTimer : Option Nat
  reconnectAttempts : Nat
  /-- Serial number for the next new WebSocket construction. -/
  nextConnId : Nat
  /-- Observational record of every reconnect delay scheduled so far. -/
  scheduledDelays : List Nat
deriving DecidableEq

def initChannel {α : Type} : ChannelState α :=
  { isConnected := false
    lastMessage := none
    connectionState := .disconnected
    wsRef := none
    reconnectTimer := none
    reconnectAttempts := 0
    nextConnId := 0
    scheduledDelays := [] }

/-- Optional-chained readyState of the current socket, as in the source's
wsRef.current?.readyState. -/
def wsReadyState {α : Type} (s : ChannelState α) : Option ReadyState :=
  s.wsRef.map WsSocket.readyState

/-- The connect callback (part_009 lines 42-56): bail out when disabled or
when the current socket is in the CONNECTING readyState; otherwise move to
connecting and construct a fresh underlying WebSocket that replaces wsRef.
URL construction and the WebSocket constructor succeed for the dashboard's
fixed well-formed relative url, so the catch branch (construction failure
into the error state) is unreachable here. -/
def connect {α : Type} (o : UseWebSocketOptions) (s : ChannelState α) : ChannelState α :=
  if !o.enabled || decide (wsReadyState s = some .connecting) then s
  else
    { s with
      connectionState := .connecting
      wsRef := some { readyState := .connecting, connId := s.nextConnId }
      nextConnId := s.nextConnId + 1 }

/-- The ws.onopen handler (part_009 lines 58-72) together with the transport
transition that fired it: the socket is now OPEN; the handler sets
isConnected, moves to connected and resets the retry counter to zero. The
one-time connection_info send it performs is outbound traffic with no effect
on the channel state. -/
def openEvent {α : Type} (s : ChannelState α) : ChannelState α :=
  { s with
    isConnected := true
    connectionState := .connected
    reconnectAttempts := 0
    wsRef := s.wsRef.map (fun w => { w with readyState := .opened }) }

/-- The ws.onclose handler (part_009 lines 84-97): drop the socket, move to
disconnected, and when reconnect is enabled and the retry counter is below
the ceiling, increment the counter and schedule a reconnect after the
configured interval. -/
def closeEvent {α : Type} (o : UseWebSocketOptions) (s : ChannelState α) : ChannelState α :=
  let s1 := { s with isConnected := false, connectionState := .disconnected,
                     wsRef := (none : Option WsSocket) }
  if o.reconnect && decide (s.reconnectAttempts < o.maxReconnectAttempts) then
    { s1 with
      reconnectAttempts := s.reconnectAttempts + 1
      reconnectTimer := some o.reconnectInterval
      scheduledDelays := s.scheduledDelays ++ [o.reconnectInterval] }
  else s1

/-- The ws.onerror handler (part_009 lines 99-103): set the error state and
log; nothing else changes. -/
def errorEvent {α : Type} (s : ChannelState α) : ChannelState α :=
  { s with connectionState := .error }

/-- The ws.onmessage handler (part_009 lines 74-82): parse the raw payload;
on success store it as lastMessage and invoke the onMessage observer (the
returned Bool); on a parse failure the catch branch only logs, leaving the
state untouched and invoking no observer. -/
def messageEvent {α : Type} (parse : String → Option (WsMessage α)) (payload : String)
    (s : ChannelState α) : ChannelState α × Bool :=
  match parse payload with
  | some m => ({ s with lastMessage := some m }, true)
  | none => (s, false)

/-- The disconnect callback (part_009 lines 112-125): clear any pending
reconnect timer, close and drop the socket, force disconnected. -/
def disconnect {α : Type} (s : ChannelState α) : ChannelState α :=
  { s with
    reconnectTimer := none
    wsRef := none
    isConnected := false
    connectionState := .disconnected }

/-- The sendMessage callback (part_009 lines 128-134): transmit and return
true exactly when the current socket's readyState is OPEN; otherwise return
false having transmitted nothing. The second component is the list of
transmissions performed. -/
def sendMessage {α β : Type} (s : ChannelState α) (message : β) : Bool × List β :=
  if wsReadyState s = some .opened then (true, [message]) else (false, [])

/-- Events driving the channel state machine: the two callback invocations,
the four transport events on the current socket, and the firing of a pending
reconnect timer (whose setTimeout body calls connect). -/
inductive ChanEvent where
  | callConnect
  | callDisconnect
  | openEvt
  | closeEvt
  | errorEvt
  | messageEvt (payload : String)
  | timerFire
deriving DecidableEq

def chanStep {α : Type} (parse : String → Option (WsMessage α)) (o : UseWebSocketOptions)
    (s : ChannelState α) : ChanEvent → ChannelState α
  | .callConnect => connect o s
  | .callDisconnect => disconnect s
  | .openEvt => openEvent s
  | .closeEvt => closeEvent o s
  | .errorEvt => errorEvent s
  | .messageEvt payload => (messageEvent parse payload s).1
  | .timerFire => connect o { s with reconnectTimer := none }

def runChan {α : Type} (parse : String → Option (WsMessage α)) (o : UseWebSocketOptions)
    (events : List ChanEvent) (s : ChannelState α) : ChannelState α :=
  List.foldl (chanStep parse o) s events

/-- Options record of the App.tsx call site: enabled and reconnect set true,
interval and ceiling left at their defaults (3000 ms, 5 attempts). -/
def defaultOptions : UseWebSocketOptions := {}

/-- Degenerate JSON parse used to drive concrete traces whose events carry no
well-formed payload. -/
def parseNone : String → Option (WsMessage Unit) := fun _ => none

def runChanU (events : List ChanEvent) : ChannelState Unit :=
  runChan parseNone defaultOptions events initChannel

/-! ## Query enablement (part_008 lines 35-42 and 55-62)

useMemory and useMemoryStats pass enabled: double-bang of the numeric id to
useQuery. A react-query query whose enabled option is false never executes
its queryFn: every render / mount / refetch opportunity leaves it an idle
entry with no fetch issued. -/

/-- Double-bang coercion of a JS number to a boolean: 0 is falsy, every other
integral value is truthy. -/
def jsNumTruthy (n : Int) : Bool := decide (n ≠ 0)

/-- Enabled flag computed by useMemory (part_008 line 39). -/
def useMemory_enabled (id : Int) : Bool := jsNumTruthy id

/-- Enabled flag computed by useMemoryStats (part_008 line 59). -/
def useMemoryStats_enabled (assistantId : Int) : Bool := jsNumTruthy assistantId

structure QueryObserver where
  status : QueryStatus
  fetchCount : Nat
deriving DecidableEq

def QueryObserver.start : QueryObserver := { status := .idle, fetchCount := 0 }

/-- One fetch opportunity (mount, render, refetch) of a react-query query:
an enabled query issues a fetch, a disabled one is left untouched. -/
def queryTick (enabled : Bool) (q : QueryObserver) : QueryObserver :=
  if enabled then { status := .loading, fetchCount := q.fetchCount + 1 } else q

/-- The query after n fetch opportunities from the initial idle entry. -/
def queryRun (enabled : Bool) : Nat → QueryObserver
  | 0 => QueryObserver.start
  | n + 1 => queryTick enabled (queryRun enabled n)

/-! ## Concrete fixtures for the scenario claims -/

/-- Memory-list filter naming assistant 7. -/
def filters7 : MemoryFilters := { assistant_id := some 7 }

/-- Memory-list filter naming assistant 9. -/
def filters9 : MemoryFilters := { assistant_id := some 9 }

/-- A fresh cache entry in the success state for a given key. -/
def freshEntry (k : QueryKey) : CacheEntry :=
  { key := k, status := .success, invalidated := false, value := none }

/-- A memory belonging to assistant 7, as returned by a successful create. -/
def memory7 : Memory :=
  { id := 101
    assistant_id := 7
    content := "note for assistant seven"
    summary := none
    memory_type := .general
    importance := 5
    tags := none
    source := none
    context := none
    is_shared := false
    shared_category := none
    access_count := 0
    created_at := "2026-10-11T00:00:00Z"
    updated_at := "2026-10-11T00:00:00Z"
    accessed_at := none
    assistant := none }

/-- Cache holding list entries for assistants 7 and 9 and stats entries for
assistants 7 and 9. -/
def cacheLists : Cache :=
  [ freshEntry (MEMORY_KEYS.list filters7)
  , freshEntry (MEMORY_KEYS.list filters9)
  , freshEntry (MEMORY_KEYS.stats 7)
  , freshEntry (MEMORY_KEYS.stats 9) ]

/-- A well-formed memory_deleted realtime message carrying memory id 42. -/
def msgMemoryDeleted42 : WsMessage MemoryEventData :=
  { type := "memory_deleted"
    data := { id := 42 }
    timestamp := "2026-10-11T00:00:01Z" }

/-- Cache holding the single-entity entry for memory 42 and two list
entries, for the realtime-deletion scenario. -/
def cacheDetail42 : Cache :=
  [ freshEntry (MEMORY_KEYS.detail 42)
  , freshEntry (MEMORY_KEYS.list filters7)
  , freshEntry (MEMORY_KEYS.list filters9) ]

/-- Trace of the open-then-immediately-closed scenario: an initial connect,
six rounds of successful open followed by an immediate server close, each
round after the first entered through the scheduled reconnect firing. -/
def traceOpenClose6 : List ChanEvent :=
  [.callConnect, .openEvt, .closeEvt]
  ++ [.timerFire, .openEvt, .closeEvt]
  ++ [.timerFire, .openEvt, .closeEvt]
  ++ [.timerFire, .openEvt, .closeEvt]
  ++ [.timerFire, .openEvt, .closeEvt]
  ++ [.timerFire, .openEvt, .closeEvt]

/-- Trace of six consecutive failed connection attempts: the socket never
opens, each close is the transport reporting the failed attempt, and every
reconnect attempt is entered through the scheduled timer firing. -/
def traceFail6 : List ChanEvent :=
  [.callConnect, .closeEvt]
  ++ [.timerFire, .closeEvt]
  ++ [.timerFire, .closeEvt]
  ++ [.timerFire, .closeEvt]
  ++ [.timerFire, .closeEvt]
  ++ [.timerFire, .closeEvt]

/-- Helper: connect never changes the retry counter, in either of its
branches. -/
lemma connect_preserves_attempts {α : Type} (o : UseWebSocketOptions) (s : ChannelState α) :
    (connect o s).reconnectAttempts = s.reconnectAttempts := by
  unfold connect
  split <;> rfl

/-! ## Claims -/

/-- C1: code-bug evidence. Delivering the well-formed memory_deleted realtime
message for id 42 to the App.tsx effect leaves the cache completely
unchanged: the single-entity entry for id 42 is still present and not
invalidated, and no memory-list entry is invalidated — the handler body only
logs the message, performing none of the invalidations the claim describes. -/
theorem memory_deleted_message_invalidates_nothing :
    App_handleLastMessage msgMemoryDeleted42 cacheDetail42 = cacheDetail42 ∧
    (findEntry (App_handleLastMessage msgMemoryDeleted42 cacheDetail42)
        (MEMORY_KEYS.detail 42)).map CacheEntry.invalidated = some false ∧
    (findEntry (App_handleLastMessage msgMemoryDeleted42 cacheDetail42)
        (MEMORY_KEYS.list filters7)).map CacheEntry.invalidated = some false ∧
    (findEntry (App_handleLastMessage msgMemoryDeleted42 cacheDetail42)
        (MEMORY_KEYS.list filters9)).map CacheEntry.invalidated = some false := by
  exact ⟨rfl, by decide, by decide, by decide⟩

/-- C2 counterexample: after a successful create-memory mutation for
assistant 7, the memory-list cache entry whose filter names assistant 9 is
invalidated as well — it is not left untouched as the claim states, because
the mutation invalidates the memory-list key prefix, which matches every
list entry. -/
theorem create_memory_invalidates_assistant9_list :
    (findEntry (applyOps cacheLists (useCreateMemory_onSuccess memory7))
        (MEMORY_KEYS.list filters9)).map CacheEntry.invalidated = some true := by
  decide

/-- C2 amended: after a successful create-memory mutation for assistant 7,
the memory-list entry for assistant 7 and the stats entry for assistant 7
are both invalidated; the memory-list entry for assistant 9 is also
invalidated (the mutation invalidates every memory-list entry), while the
stats entry for assistant 9 is left untouched. -/
theorem create_memory_invalidation_scope :
    (findEntry (applyOps cacheLists (useCreateMemory_onSuccess memory7))
        (MEMORY_KEYS.list filters7)).map CacheEntry.invalidated = some true ∧
    (findEntry (applyOps cacheLists (useCreateMemory_onSuccess memory7))
        (MEMORY_KEYS.stats 7)).map CacheEntry.invalidated = some true ∧
    (findEntry (applyOps cacheLists (useCreateMemory_onSuccess memory7))
        (MEMORY_KEYS.list filters9)).map CacheEntry.invalidated = some true ∧
    findEntry (applyOps cacheLists (useCreateMemory_onSuccess memory7))
        (MEMORY_KEYS.stats 9) = some (freshEntry (MEMORY_KEYS.stats 9)) := by
  refine ⟨by decide, by decide, by decide, by decide⟩

/-- C3 counterexample: with the default ceiling of 5 and interval of 3000 ms,
six rounds of successful open followed by an immediate server close schedule
six reconnects, not five, and leave a reconnect timer pending — the channel
has not stopped retrying, because every successful open resets the retry
counter to zero. -/
theorem open_close_six_times_schedules_six_reconnects :
    (runChanU traceOpenClose6).scheduledDelays = List.replicate 6 3000 ∧
    (runChanU traceOpenClose6).reconnectTimer = some 3000 := by
  decide

/-- C3 amended: with the default ceiling of 5 and interval of 3000 ms, if the
channel opens and the server immediately closes it six times in a row, a
reconnect is scheduled after every one of the six closes, each with a
3000 ms delay, and the channel is still retrying afterwards, because each
successful open resets the retry counter; only six consecutive failed
connection attempts with no successful open exhaust the ceiling, scheduling
exactly five reconnects of 3000 ms each, after which the channel stays
disconnected with no socket and no pending timer until connect() is called
explicitly. -/
theorem reconnect_ceiling_behaviour :
    ((runChanU traceOpenClose6).scheduledDelays = List.replicate 6 3000 ∧
     (runChanU traceOpenClose6).reconnectTimer = some 3000 ∧
     (runChanU traceOpenClose6).reconnectAttempts = 1) ∧
    ((runChanU traceFail6).scheduledDelays = List.replicate 5 3000 ∧
     (runChanU traceFail6).reconnectTimer = none ∧
     (runChanU traceFail6).reconnectAttempts = 5 ∧
     (runChanU traceFail6).connectionState = .disconnected ∧
     (runChanU traceFail6).wsRef = none) := by
  decide

/-- C4 counterexample: calling connect() while the channel is connected is
not a no-op — a second underlying connection is constructed (the connection
serial advances and a fresh socket in the CONNECTING readyState replaces the
live open one), and the channel state changes. -/
theorem connect_while_connected_not_noop :
    (runChanU [.callConnect, .openEvt]).connectionState = .connected ∧
    connect defaultOptions (runChanU [.callConnect, .openEvt])
        ≠ runChanU [.callConnect, .openEvt] ∧
    (connect defaultOptions (runChanU [.callConnect, .openEvt])).nextConnId
        = (runChanU [.callConnect, .openEvt]).nextConnId + 1 ∧
    (connect defaultOptions (runChanU [.callConnect, .openEvt])).wsRef
        = some { readyState := .connecting, connId := 1 } := by
  refine ⟨by decide, by decide, by decide, by decide⟩

/-- C4 amended: calling connect() while the channel's underlying socket is in
the CONNECTING readyState is a no-op — no second connection is constructed
and the state is unchanged; connect is not idempotent in the connected
state, where it constructs a replacement connection. -/
theorem connect_noop_only_while_connecting {α : Type} (o : UseWebSocketOptions)
    (s : ChannelState α) (h : wsReadyState s = some .connecting) :
    connect o s = s := by
  simp [connect, h]

/-- C4 witness: the amended no-op theorem applied at the concrete state
reached right after the initial connect call, whose socket is CONNECTING. -/
theorem connect_noop_while_connecting_witness :
    connect defaultOptions (runChanU [.callConnect]) = runChanU [.callConnect] :=
  connect_noop_only_while_connecting defaultOptions (runChanU [.callConnect]) (by decide)

/-- C5: for each of the create, update and delete mutations, a failed remote
write touches no cache entry — the cache is returned unchanged, with no
entry seeded, invalidated or removed — the error is surfaced to the caller
as an error toast, and the mutation layer performs zero automatic retries. -/
theorem mutation_failure_touches_no_cache (e : JsError) (c : Cache) (deletedId : Int) :
    useCreateMemory_onResult (.error e) c
        = (c, .error (e.message.getD "Failed to create memory")) ∧
    useUpdateMemory_onResult (.error e) c
        = (c, .error (e.message.getD "Failed to update memory")) ∧
    useDeleteMemory_onResult deletedId (.error e) c
        = (c, .error (e.message.getD "Failed to delete memory")) ∧
    mutationRetryCount = 0 :=
  ⟨rfl, rfl, rfl, rfl⟩

/-- C6: for every message and every channel state, sendMessage transmits the
message and returns true exactly when the current socket is in the OPEN
readyState, and otherwise returns false having transmitted nothing; being a
total function of the state and message, it never throws. -/
theorem sendMessage_true_only_when_connected {α β : Type} :
    ∀ (s : ChannelState α) (m : β),
      (wsReadyState s = some .opened ∧ sendMessage s m = (true, [m])) ∨
      (wsReadyState s ≠ some .opened ∧ sendMessage s m = (false, [])) := by
  intro s m
  by_cases h : wsReadyState s = some ReadyState.opened
  · exact .inl ⟨h, by simp [sendMessage, h]⟩
  · exact .inr ⟨h, by simp [sendMessage, h]⟩

/-- C7: an inbound payload that fails to parse is dropped: the handler
returns the state unchanged — in particular lastMessage, the reconnect
timer and the retry counter are untouched — and does not invoke the
onMessage observer. -/
theorem malformed_payload_dropped {α : Type} (parse : String → Option (WsMessage α))
    (payload : String) (s : ChannelState α) (h : parse payload = none) :
    messageEvent parse payload s = (s, false) ∧
    (messageEvent parse payload s).1.lastMessage = s.lastMessage ∧
    (messageEvent parse payload s).1.reconnectTimer = s.reconnectTimer ∧
    (messageEvent parse payload s).1.reconnectAttempts = s.reconnectAttempts := by
  simp [messageEvent, h]

/-- C7 witness: the drop theorem applied to a concrete unparsable payload in
the initial channel state. -/
theorem malformed_payload_dropped_witness :
    messageEvent parseNone "not json" (initChannel (α := Unit))
        = (initChannel, false) ∧
    (messageEvent parseNone "not json" (initChannel (α := Unit))).1.lastMessage
        = (initChannel (α := Unit)).lastMessage ∧
    (messageEvent parseNone "not json" (initChannel (α := Unit))).1.reconnectTimer
        = (initChannel (α := Unit)).reconnectTimer ∧
    (messageEvent parseNone "not json" (initChannel (α := Unit))).1.reconnectAttempts
        = (initChannel (α := Unit)).reconnectAttempts :=
  malformed_payload_dropped parseNone "not json" initChannel rfl

/-- C9: the retry counter is reset to zero only by a successful open event:
the disconnect and connect callbacks both leave it unchanged, and any step
that ends with a zero counter either started with a zero counter or was the
open event. -/
theorem retry_counter_reset_only_by_open {α : Type}
    (parse : String → Option (WsMessage α)) (o : UseWebSocketOptions)
    (s : ChannelState α) (e : ChanEvent) :
    (chanStep parse o s .callDisconnect).reconnectAttempts = s.reconnectAttempts ∧
    (chanStep parse o s .callConnect).reconnectAttempts = s.reconnectAttempts ∧
    ((chanStep parse o s e).reconnectAttempts = 0 →
      s.reconnectAttempts = 0 ∨ e = .openEvt) := by
  refine ⟨rfl, connect_preserves_attempts o s, ?_⟩
  intro h0
  cases e with
  | callConnect =>
      exact .inl ((connect_preserves_attempts o s).symm.trans h0)
  | callDisconnect => exact .inl h0
  | openEvt => exact .inr rfl
  | closeEvt =>
      left
      unfold chanStep closeEvent at h0
      by_cases hc : (o.reconnect && decide (s.reconnectAttempts < o.maxReconnectAttempts)) = true
      · simp [hc] at h0
      · simp [hc] at h0
        exact h0
  | errorEvt => exact .inl h0
  | messageEvt payload =>
      left
      unfold chanStep messageEvent at h0
      cases hp : parse payload <;> simp [hp] at h0 <;> exact h0
  | timerFire =>
      exact .inl ((connect_preserves_attempts o { s with reconnectTimer := none }).symm.trans h0)

/-- C9 witness: the reset theorem applied at the concrete state reached after
six consecutive failed connection attempts, whose counter stands at five,
with the close event. -/
theorem retry_counter_reset_witness :
    (chanStep parseNone defaultOptions (runChanU traceFail6) .callDisconnect).reconnectAttempts
        = (runChanU traceFail6).reconnectAttempts ∧
    (chanStep parseNone defaultOptions (runChanU traceFail6) .callConnect).reconnectAttempts
        = (runChanU traceFail6).reconnectAttempts ∧
    ((chanStep parseNone defaultOptions (runChanU traceFail6) .closeEvt).reconnectAttempts = 0 →
      (runChanU traceFail6).reconnectAttempts = 0 ∨ ChanEvent.closeEvt = ChanEvent.openEvt) :=
  retry_counter_reset_only_by_open parseNone defaultOptions (runChanU traceFail6) .closeEvt

/-- C10: with the falsy id 0, the single-memory query and the per-assistant
stats query compute a false enabled flag, so however many fetch
opportunities occur, each query stays the initial idle entry with a fetch
count of zero — no network fetch is ever issued. -/
theorem zero_id_queries_stay_idle :
    useMemory_enabled 0 = false ∧ useMemoryStats_enabled 0 = false ∧
    ∀ n : Nat,
      queryRun (useMemory_enabled 0) n = QueryObserver.start ∧
      queryRun (useMemoryStats_enabled 0) n = QueryObserver.start := by
  refine ⟨rfl, rfl, ?_⟩
  intro n
  induction n with
  | zero => exact ⟨rfl, rfl⟩
  | succ n ih =>
      refine ⟨?_, ?_⟩
      · show queryTick (useMemory_enabled 0) (queryRun (useMemory_enabled 0) n)
            = QueryObserver.start
        rw [ih.1]
        rfl
      · show queryTick (useMemoryStats_enabled 0) (queryRun (useMemoryStats_enabled 0) n)
            = QueryObserver.start
        rw [ih.2]
        rfl

end ExtendedMemory
